import Mathlib

/-!
Verification development for the AI content-generation pipeline of the
Padho Abhi repository (Django application).  The Python sources under
`src/core/` are shallowly embedded below:

* provider replies are modelled as inputs (`ProviderOutcome`): either the
  reply text together with its token-usage metadata, or a raised exception
  carrying its message (string arguments are `List Char`);
* Python dictionaries produced and consumed by `ai_service.py` are modelled
  by the `Json` type; `json.loads` is modelled by `json_loads` (restricted
  to integer number literals, which is all any statement below needs);
* the database rows written by `tasks.py` / `views.py` are a `Store` record;
  an `Option` result models an exception escaping a persistence loop;
* datetimes are abstracted to natural-number calendar days, and the
  floating-point cost computation of `models.py` is idealised over `ℚ`.
-/

namespace PadhoAbhi

/-! ### String helpers (Python `str.lower` and the `in` operator) -/

/-- Python `s.lower()` on a string modelled as a list of characters. -/
def lowerL (s : List Char) : List Char := s.map Char.toLower

/-- `startsWithL p s` holds when `p` is an initial segment of `s`. -/
def startsWithL : List Char → List Char → Bool
  | [], _ => true
  | _ :: _, [] => false
  | p :: ps, c :: cs => p == c && startsWithL ps cs

/-- Python `pat in s` for strings: `pat` occurs contiguously inside `s`. -/
def containsSub (pat : List Char) : List Char → Bool
  | [] => startsWithL pat []
  | c :: cs => startsWithL pat (c :: cs) || containsSub pat cs

/-! ### JSON values (the dictionaries and lists flowing through `ai_service.py`) -/

/-- Python values produced by `json.loads` and the dict/list literals built by
`GeminiService`: `None`, booleans, integers, strings, lists and dicts (a dict
is an insertion-ordered association list without duplicate keys). -/
inductive Json where
  | null : Json
  | boolVal : Bool → Json
  | intVal : Int → Json
  | strVal : List Char → Json
  | arr : List Json → Json
  | obj : List (List Char × Json) → Json

/-- Lookup of a key in a dict (first, and only, occurrence). -/
def getKey (kvs : List (List Char × Json)) (k : List Char) : Option Json :=
  (kvs.find? (fun p => p.1 == k)).map (fun p => p.2)

/-- Python dict assignment `d[k] = v`: replace in place when the key exists
(keeping its position, as CPython dicts do), otherwise append. -/
def setKey (kvs : List (List Char × Json)) (k : List Char) (v : Json) :
    List (List Char × Json) :=
  if kvs.any (fun p => p.1 == k) then
    kvs.map (fun p => if p.1 == k then (k, v) else p)
  else kvs ++ [(k, v)]

/-- Python `d.get(k, dflt)` on a dict; on any non-dict value `.get` would raise
`AttributeError`, but every caller below applies it to a dict, so the non-dict
case returns the default. -/
def jsonGetD (j : Json) (k : List Char) (dflt : Json) : Json :=
  match j with
  | .obj kvs => (getKey kvs k).getD dflt
  | _ => dflt

/-- Python `k in d` for dicts (`False` on the non-dict values reaching it). -/
def jsonHasKey (j : Json) (k : List Char) : Bool :=
  match j with
  | .obj kvs => kvs.any (fun p => p.1 == k)
  | _ => false

/-- Python truthiness of a JSON-shaped value (`not result` in the sources). -/
def jsonTruthy : Json → Bool
  | .null => false
  | .boolVal b => b
  | .intVal n => !(n == 0)
  | .strVal s => !s.isEmpty
  | .arr xs => !xs.isEmpty
  | .obj kvs => !kvs.isEmpty

/-- `isinstance(result, list)`. -/
def jsonIsList : Json → Bool
  | .arr _ => true
  | _ => false

/-- The underlying list of an array value (callers guard with `jsonIsList`). -/
def jsonAsList : Json → List Json
  | .arr xs => xs
  | _ => []

/-- `str(v)` as used in the error f-strings; only string-valued error entries
occur in the pipeline, so the other branches are unreachable there. -/
def jsonStr : Json → List Char
  | .strVal s => s
  | _ => []

/-! ### A model of `json.loads`

Recursive-descent parser over characters.  Number literals are modelled as
integers only: no statement below depends on fractional or exponent syntax.
Parsing succeeds only when the whole input (up to trailing whitespace) is one
JSON document, exactly as `json.loads` requires. -/

/-- Skip JSON whitespace. -/
def skipWs : List Char → List Char
  | c :: cs => if c == ' ' || c == '\t' || c == '\n' || c == '\r' then skipWs cs else c :: cs
  | [] => []

/-- Parse the body of a string literal after the opening quote, returning the
decoded characters and the rest of the input after the closing quote. -/
def parseStringBody : List Char → Option (List Char × List Char)
  | [] => none
  | '"' :: rest => some ([], rest)
  | '\\' :: e :: rest =>
    let esc : Option Char :=
      if e == '"' then some '"'
      else if e == '\\' then some '\\'
      else if e == '/' then some '/'
      else if e == 'n' then some '\n'
      else if e == 't' then some '\t'
      else if e == 'r' then some '\r'
      else none
    match esc with
    | some c =>
      match parseStringBody rest with
      | some (s, r) => some (c :: s, r)
      | none => none
    | none => none
  | c :: rest =>
    match parseStringBody rest with
    | some (s, r) => some (c :: s, r)
    | none => none

/-- Take a maximal run of decimal digits. -/
def takeDigits : List Char → (List Char × List Char)
  | [] => ([], [])
  | c :: rest =>
    if c.isDigit then
      let (ds, r) := takeDigits rest
      (c :: ds, r)
    else ([], c :: rest)

/-- Decimal digits to a natural number. -/
def digitsToNat (ds : List Char) : Nat :=
  ds.foldl (fun acc c => acc * 10 + (c.toNat - 48)) 0

/-- Parse an (integer) JSON number literal. -/
def parseIntLit (s : List Char) : Option (Json × List Char) :=
  match s with
  | '-' :: rest =>
    let (ds, r) := takeDigits rest
    if ds.isEmpty then none else some (.intVal (-(digitsToNat ds : Int)), r)
  | _ =>
    let (ds, r) := takeDigits s
    if ds.isEmpty then none else some (.intVal (digitsToNat ds), r)

/-- Parse the comma-separated items of an array after the first item position,
given a parser `pv` for one value; `fuel` bounds the number of items. -/
def parseArrItems (pv : List Char → Option (Json × List Char)) :
    Nat → List Char → List Json → Option (List Json × List Char)
  | 0, _, _ => none
  | n + 1, s, acc =>
    match pv s with
    | none => none
    | some (v, r) =>
      match skipWs r with
      | ',' :: r2 => parseArrItems pv n r2 (acc ++ [v])
      | ']' :: r2 => some (acc ++ [v], r2)
      | _ => none

/-- Parse the `"key": value` items of an object; later duplicate keys replace
earlier ones in place, as `json.loads` building a dict does. -/
def parseObjItems (pv : List Char → Option (Json × List Char)) :
    Nat → List Char → List (List Char × Json) →
    Option (List (List Char × Json) × List Char)
  | 0, _, _ => none
  | n + 1, s, acc =>
    match skipWs s with
    | '"' :: r =>
      match parseStringBody r with
      | some (k, r1) =>
        match skipWs r1 with
        | ':' :: r2 =>
          match pv r2 with
          | some (v, r3) =>
            match skipWs r3 with
            | ',' :: r4 => parseObjItems pv n r4 (setKey acc k v)
            | '}' :: r4 => some (setKey acc k v, r4)
            | _ => none
          | none => none
        | _ => none
      | none => none
    | _ => none

/-- Parse one JSON value; `fuel` bounds the nesting depth. -/
def parseVal : Nat → List Char → Option (Json × List Char)
  | 0, _ => none
  | fuel + 1, s0 =>
    match skipWs s0 with
    | [] => none
    | c :: rest =>
      if c == '{' then
        match skipWs rest with
        | '}' :: r2 => some (.obj [], r2)
        | r1 =>
          match parseObjItems (parseVal fuel) (fuel + 1) r1 [] with
          | some (kvs, r2) => some (.obj kvs, r2)
          | none => none
      else if c == '[' then
        match skipWs rest with
        | ']' :: r2 => some (.arr [], r2)
        | r1 =>
          match parseArrItems (parseVal fuel) (fuel + 1) r1 [] with
          | some (xs, r2) => some (.arr xs, r2)
          | none => none
      else if c == '"' then
        match parseStringBody rest with
        | some (str, r) => some (.strVal str, r)
        | none => none
      else if c == 't' then
        match rest with
        | 'r' :: 'u' :: 'e' :: r => some (.boolVal true, r)
        | _ => none
      else if c == 'f' then
        match rest with
        | 'a' :: 'l' :: 's' :: 'e' :: r => some (.boolVal false, r)
        | _ => none
      else if c == 'n' then
        match rest with
        | 'u' :: 'l' :: 'l' :: r => some (.null, r)
        | _ => none
      else parseIntLit (c :: rest)

/-- `json.loads`: parse one document and require only whitespace after it. -/
def json_loads (s : List Char) : Option Json :=
  match parseVal (s.length + 2) s with
  | some (v, r) => if (skipWs r).isEmpty then some v else none
  | none => none

/-! ### `GeminiService._clean_json_response` (`src/core/ai_service.py` 26-35)

`re.search` with the pattern (object alternative first, both greedy across the
whole text) finds, at the leftmost feasible start position, the span from an
opening brace/bracket to the LAST matching closer anywhere later in the text.
The span is then handed to `json.loads`; any parse failure yields `None`. -/

/-- Index of the last occurrence of `c`, if any. -/
def lastIndexOf (c : Char) : List Char → Option Nat
  | [] => none
  | x :: xs =>
    match lastIndexOf c xs with
    | some i => some (i + 1)
    | none => if x == c then some 0 else none

/-- Scan for the leftmost match of the pattern: at index `i`, an opening brace
with some closing brace strictly later matches up to the last closing brace of
the whole text (greedy `[\s\S]*`); failing that, the bracket alternative is
tried at the same index; otherwise the scan advances.  `jb` and `js` are the
indices of the last brace and bracket closers in the full text. -/
def regexFind (full : List Char) (jb js : Option Nat) : Nat → List Char → Option (List Char)
  | _, [] => none
  | i, c :: rest =>
    if c == '{' then
      match jb with
      | some j =>
        if i < j then some ((full.drop i).take (j - i + 1))
        else regexFind full jb js (i + 1) rest
      | none => regexFind full jb js (i + 1) rest
    else if c == '[' then
      match js with
      | some j =>
        if i < j then some ((full.drop i).take (j - i + 1))
        else regexFind full jb js (i + 1) rest
      | none => regexFind full jb js (i + 1) rest
    else regexFind full jb js (i + 1) rest

/-- `_clean_json_response`: extract the regex span and parse it, returning
`none` both when no span exists and when the span is not valid JSON. -/
def clean_json_response (text : List Char) : Option Json :=
  match regexFind text (lastIndexOf '}' text) (lastIndexOf ']' text) 0 text with
  | some span => json_loads span
  | none => none

/-! ### Dictionary keys and keyword constants used by the sources -/

def errK : List Char := "error".data

def errCodeK : List Char := "error_code".data

def usageK : List Char := "usage".data

def inputK : List Char := "input".data

def outputK : List Char := "output".data

def summaryK : List Char := "summary".data

def detailedK : List Char := "detailed_content".data

def analogiesK : List Char := "analogies".data

def diagramK : List Char := "diagram_description".data

def centralK : List Char := "central_idea".data

def branchesK : List Char := "branches".data

def titleK : List Char := "title".data

def subpointsK : List Char := "subpoints".data

def flashcardsK : List Char := "flashcards".data

def mcqsK : List Char := "mcqs".data

def frontK : List Char := "front".data

def backK : List Char := "back".data

def questionK : List Char := "question".data

def optionsK : List Char := "options".data

def correctK : List Char := "correct".data

def explanationK : List Char := "explanation".data

def difficultyK : List Char := "difficulty".data

def quotaKw : List Char := "quota".data

def rateLimitKw : List Char := "rate limit".data

def tooManyKw : List Char := "too many requests".data

def code429Kw : List Char := "429".data

def quotaCodeV : List Char := "quota_exceeded".data

def quotaSpacedKw : List Char := "quota exceeded".data

def rateLimitedKw : List Char := "rate-limited".data

def mediumV : List Char := "medium".data

def aV : List Char := "a".data

/-! ### `GeminiService._error_dict` (`ai_service.py` 49-55) and
`is_rate_limit_error` (`views.py` 151-157) -/

/-- Does the lowercased error text contain one of the four quota markers
checked by `_error_dict`? -/
def quotaMarkers (lower : List Char) : Bool :=
  containsSub quotaKw lower || containsSub rateLimitKw lower ||
    containsSub tooManyKw lower || containsSub code429Kw lower

/-- `_error_dict(e)`: tag the stringified exception, adding
`error_code = quota_exceeded` exactly when a quota marker occurs
(case-insensitively) in the message. -/
def error_dict (msg : List Char) : Json :=
  if quotaMarkers (lowerL msg) then
    .obj [(errK, .strVal msg), (errCodeK, .strVal quotaCodeV)]
  else .obj [(errK, .strVal msg)]

/-- The `error_code` entry of a result dict. -/
def errCodeOf (j : Json) : Option Json :=
  match j with
  | .obj kvs => getKey kvs errCodeK
  | _ => none

/-- The seven keywords of `views.is_rate_limit_error`. -/
def rateLimitKeywords : List (List Char) :=
  [quotaKw, rateLimitKw, tooManyKw, code429Kw, quotaCodeV, quotaSpacedKw, rateLimitedKw]

/-- `is_rate_limit_error(error_msg)`: empty messages are not rate limits;
otherwise any of the seven keywords may occur in the lowercased message. -/
def is_rate_limit_error (msg : List Char) : Bool :=
  if msg.isEmpty then false
  else rateLimitKeywords.any (fun k => containsSub k (lowerL msg))

/-- The outbound status every generation view computes from an error message:
429 when `is_rate_limit_error`, else 500 (`views.py` 700-707, 828-833, ...). -/
def error_response_status (msg : List Char) : Nat :=
  if is_rate_limit_error msg then 429 else 500

/-! ### Provider outcomes and the generation client (`ai_service.py`) -/

/-- Token usage metadata of one provider response (`_extract_usage`). -/
structure Usage where
  input : Nat
  output : Nat
deriving DecidableEq, Repr

/-- One call to `self.model.generate_content`: either a reply text with its
usage metadata, or a raised exception carrying its message.  The prompt text
is irrelevant to every statement below and is not modelled. -/
inductive ProviderOutcome where
  | ok : List Char → Usage → ProviderOutcome
  | exn : List Char → ProviderOutcome

/-- The usage dict `result['usage'] = self._extract_usage(response)`. -/
def usageJson (u : Usage) : Json :=
  .obj [(inputK, .intVal u.input), (outputK, .intVal u.output)]

/-- The message of the `TypeError` raised by `result['usage'] = ...` when the
parsed JSON is not a dict; it carries no quota marker, so `_error_dict` tags
it as a generic error. -/
def typeErrorMsg : List Char :=
  "list indices must be integers or slices, not str".data

/-- Assign `result['usage'] = usage` on the parsed value: on a dict this sets
the key; on any other (truthy) parsed value Python raises `TypeError`, which
the surrounding `except` turns into `_error_dict`. -/
def attachUsage (j : Json) (u : Usage) : Json :=
  match j with
  | .obj kvs => .obj (setKey kvs usageK (usageJson u))
  | _ => error_dict typeErrorMsg

/-- The fallback notes dict built when no JSON could be extracted
(`ai_service.py` 80-87), with the usage entry then assigned. -/
def fallbackNotes (text : List Char) (u : Usage) : Json :=
  .obj [(summaryK, .strVal (text.take 500)), (detailedK, .strVal text),
        (analogiesK, .arr []), (diagramK, .strVal []),
        (usageK, usageJson u)]

/-- `GeminiService.generate_notes` (57-91), given the provider outcome. -/
def generate_notes (o : ProviderOutcome) : Json :=
  match o with
  | .exn msg => error_dict msg
  | .ok text u =>
    match clean_json_response text with
    | some j => if jsonTruthy j then attachUsage j u else fallbackNotes text u
    | none => fallbackNotes text u

/-- The fallback mindmap dict (`ai_service.py` 124-128), usage then assigned. -/
def fallbackMindmap (topicName : List Char) (u : Usage) : Json :=
  .obj [(centralK, .strVal topicName),
        (branchesK, .arr [.obj [(titleK, .strVal ("Error parsing response".data)),
                                (subpointsK, .arr [])]]),
        (usageK, usageJson u)]

/-- `GeminiService.generate_mindmap` (93-132). -/
def generate_mindmap (topicName : List Char) (o : ProviderOutcome) : Json :=
  match o with
  | .exn msg => error_dict msg
  | .ok text u =>
    match clean_json_response text with
    | some j => if jsonTruthy j then attachUsage j u else fallbackMindmap topicName u
    | none => fallbackMindmap topicName u

/-- `GeminiService.generate_flashcards` (134-169): the parsed value is coerced
to `[]` unless it is a (truthy) list, and wrapped under the `flashcards` key
next to the usage entry. -/
def generate_flashcards (o : ProviderOutcome) : Json :=
  match o with
  | .exn msg => error_dict msg
  | .ok text u =>
    let result := clean_json_response text
    let xs : List Json :=
      match result with
      | some j => if jsonTruthy j && jsonIsList j then jsonAsList j else []
      | none => []
    .obj [(flashcardsK, .arr xs), (usageK, usageJson u)]

/-- `GeminiService.generate_mcqs` (171-217), same shape under the `mcqs` key. -/
def generate_mcqs (o : ProviderOutcome) : Json :=
  match o with
  | .exn msg => error_dict msg
  | .ok text u =>
    let result := clean_json_response text
    let xs : List Json :=
      match result with
      | some j => if jsonTruthy j && jsonIsList j then jsonAsList j else []
      | none => []
    .obj [(mcqsK, .arr xs), (usageK, usageJson u)]

/-- The usage entry of a result dict, read back for aggregation; every dict
carrying a `usage` key below stores it in `usageJson` shape. -/
def usageOf (j : Json) : Usage :=
  match jsonGetD j usageK (.obj []) with
  | .obj kvs =>
    { input := match getKey kvs inputK with
        | some (.intVal n) => n.toNat
        | _ => 0
      output := match getKey kvs outputK with
        | some (.intVal n) => n.toNat
        | _ => 0 }
  | _ => ⟨0, 0⟩

/-- Add the usage of `j` when it carries one (`if 'usage' in item`). -/
def addUsageOf (acc : Usage) (j : Json) : Usage :=
  if jsonHasKey j usageK then
    ⟨acc.input + (usageOf j).input, acc.output + (usageOf j).output⟩
  else acc

/-- The record returned by `generate_all_content` (`ai_service.py` 276-301):
the notes and mindmap dicts verbatim, the flashcards/mcqs dicts projected
through `.get('flashcards', [])` / `.get('mcqs', [])` — which silently turns
an error dict into the empty list — and the usage summed over the four calls
that reported one. -/
structure AllContent where
  notes : Json
  mindmap : Json
  flashcards : Json
  mcqs : Json
  usage : Usage

/-- `GeminiService.generate_all_content`, with one provider outcome per
artifact-kind call. -/
def generate_all_content (topicName : List Char)
    (oNotes oMindmap oFlash oMcq : ProviderOutcome) : AllContent :=
  let notes := generate_notes oNotes
  let mindmap := generate_mindmap topicName oMindmap
  let flashcards := generate_flashcards oFlash
  let mcqs := generate_mcqs oMcq
  let total := [notes, mindmap, flashcards, mcqs].foldl addUsageOf ⟨0, 0⟩
  { notes := notes
    mindmap := mindmap
    flashcards := jsonGetD flashcards flashcardsK (.arr [])
    mcqs := jsonGetD mcqs mcqsK (.arr [])
    usage := total }

/-! ### Persisted artifacts for one topic (`models.py`) -/

/-- The singleton `Note` row of a topic (field values as written by the
`update_or_create` defaults). -/
structure NoteRow where
  summary : Json
  detailed_content : Json
  analogies : Json
  diagram_description : Json

/-- One `Flashcard` row. -/
structure CardRow where
  front_text : Json
  back_text : Json

/-- One `MCQQuestion` row. -/
structure McqRow where
  question_text : Json
  option_a : Json
  option_b : Json
  option_c : Json
  option_d : Json
  correct_option : Json
  explanation : Json
  difficulty : Json

/-- The artifacts persisted for one topic: the singleton note and mindmap
(the mindmap row stores its `json_data` value verbatim) and the flashcard
and MCQ sets. -/
structure Store where
  note : Option NoteRow
  mindmap : Option Json
  flashcards : List CardRow
  mcqs : List McqRow

/-- A topic with nothing generated yet. -/
def emptyStore : Store := ⟨none, none, [], []⟩

/-- The `Note` defaults dict of `update_or_create` applied to a notes result
dict (`tasks.py` 60-68, identically `views.py` 714-723). -/
def noteRowOf (notes : Json) : NoteRow :=
  { summary := jsonGetD notes summaryK (.strVal [])
    detailed_content := jsonGetD notes detailedK (.strVal [])
    analogies := jsonGetD notes analogiesK (.arr [])
    diagram_description := jsonGetD notes diagramK (.strVal []) }

/-- `del mindmap_data['usage']` guarded by `if 'usage' in mindmap_data`
(`tasks.py` 73-74). -/
def delUsage (j : Json) : Json :=
  match j with
  | .obj kvs => .obj (kvs.filter (fun p => !(p.1 == usageK)))
  | x => x

/-- Build one flashcard row from a parsed element; a non-dict element makes
`fc.get('front', '')` raise `AttributeError` (`none`). -/
def cardOf (fc : Json) : Option CardRow :=
  match fc with
  | .obj kvs =>
    some { front_text := (getKey kvs frontK).getD (.strVal [])
           back_text := (getKey kvs backK).getD (.strVal []) }
  | _ => none

/-- Build one MCQ row; `mcq.get('options', {})` then `options.get('a', '')`
raise on non-dict values (`none`). -/
def mcqRowOf (m : Json) : Option McqRow :=
  match m with
  | .obj kvs =>
    match (getKey kvs optionsK).getD (.obj []) with
    | .obj okvs =>
      some { question_text := (getKey kvs questionK).getD (.strVal [])
             option_a := (getKey okvs aV).getD (.strVal [])
             option_b := (getKey okvs ("b".data)).getD (.strVal [])
             option_c := (getKey okvs ("c".data)).getD (.strVal [])
             option_d := (getKey okvs ("d".data)).getD (.strVal [])
             correct_option := (getKey kvs correctK).getD (.strVal aV)
             explanation := (getKey kvs explanationK).getD (.strVal [])
             difficulty := (getKey kvs difficultyK).getD (.strVal mediumV) }
    | _ => none
  | _ => none

/-- The `Flashcard.objects.create` loop: rows created before a raising element
are already committed, so the result is the created prefix together with a
flag recording whether the loop completed without raising. -/
def persistCards : List Json → (List CardRow × Bool)
  | [] => ([], true)
  | fc :: rest =>
    match cardOf fc with
    | some row =>
      let (rs, ok) := persistCards rest
      (row :: rs, ok)
    | none => ([], false)

/-- The `MCQQuestion.objects.create` loop, same committed-prefix semantics. -/
def persistMcqs : List Json → (List McqRow × Bool)
  | [] => ([], true)
  | m :: rest =>
    match mcqRowOf m with
    | some row =>
      let (rs, ok) := persistMcqs rest
      (row :: rs, ok)
    | none => ([], false)

/-! ### Task records (`models.AITask`) -/

/-- The `AITask.status` state machine. -/
inductive TaskStatus where
  | pending
  | processing
  | completed
  | failed
deriving DecidableEq, Repr

/-- The fields of the task record a run leaves behind (stale fields of an
earlier record that a rerun does not overwrite are not tracked). -/
structure TaskRec where
  status : TaskStatus
  error_message : Option (List Char)
  result : Option (Bool × Bool × Nat × Nat)
deriving Repr

/-- The per-part error checks shared by `tasks.py` 41-49 and `views.py`
691-699: a part contributes an error exactly when its value is a dict
carrying an `error` key.  `name` is the label used in the message. -/
def partErr (name : List Char) (j : Json) : List (List Char × List Char) :=
  match j with
  | .obj kvs =>
    match getKey kvs errK with
    | some e => [(name, jsonStr e)]
    | none => []
  | _ => []

/-- The error list accumulated over the four parts of an `AllContent`. -/
def contentErrors (n1 n2 n3 n4 : List Char) (c : AllContent) :
    List (List Char × List Char) :=
  partErr n1 c.notes ++ partErr n2 c.mindmap ++ partErr n3 c.flashcards ++
    partErr n4 c.mcqs

/-- `'; '.join(errors)` over `f"{part}: {msg}"` entries (`tasks.py` 53). -/
def joinErrors (ps : List (List Char × List Char)) : List Char :=
  List.intercalate ("; ".data) (ps.map (fun p => p.1 ++ (": ".data) ++ p.2))

/-- The message of the `AttributeError` escaping a persistence loop. -/
def attributeErrorMsg : List Char :=
  "object has no attribute get".data

/-! ### `generate_content_task` (`tasks.py` 11-142)

The task record is set to `processing`, `generate_all_content` is run, the
four per-part error checks decide failure, otherwise the artifacts are
persisted (notes and mindmap upserted, flashcard/MCQ sets cleared and
re-created when the projected list is truthy) and the record completed.  Any
exception — in the model, an `AttributeError` from a persistence loop — is
caught by the outer handler, which marks the record failed. -/
def generate_content_task (topicName : List Char)
    (oNotes oMindmap oFlash oMcq : ProviderOutcome) (s : Store) :
    TaskRec × Store :=
  let content := generate_all_content topicName oNotes oMindmap oFlash oMcq
  let errors := contentErrors ("Notes".data) ("Mindmap".data)
    ("Flashcards".data) ("MCQs".data) content
  if errors.isEmpty then
    let note1 := if jsonHasKey content.notes errK then s.note
      else some (noteRowOf content.notes)
    let mindmap1 := if jsonHasKey content.mindmap errK then s.mindmap
      else some (delUsage content.mindmap)
    let fcP :=
      if jsonTruthy content.flashcards then persistCards (jsonAsList content.flashcards)
      else (s.flashcards, true)
    if fcP.2 then
      let mcqP :=
        if jsonTruthy content.mcqs then persistMcqs (jsonAsList content.mcqs)
        else (s.mcqs, true)
      if mcqP.2 then
        (⟨.completed, none,
          some (true, true, (jsonAsList content.flashcards).length,
            (jsonAsList content.mcqs).length)⟩,
         ⟨note1, mindmap1, fcP.1, mcqP.1⟩)
      else (⟨.failed, some attributeErrorMsg, none⟩, ⟨note1, mindmap1, fcP.1, mcqP.1⟩)
    else (⟨.failed, some attributeErrorMsg, none⟩, ⟨note1, mindmap1, fcP.1, s.mcqs⟩)
  else (⟨.failed, some (joinErrors errors), none⟩, s)

/-! ### `generate_notes_task` (`tasks.py` 145-190) and
`generate_flashcards_task` (`tasks.py` 193-243)

Both set the record to `processing`, run one generation, mark the record
failed on an error dict and completed after persisting.  Their exception
handlers (lines 188-190 and 241-243) only log and return: an exception in a
persistence loop leaves the record in `processing`. -/
def generate_notes_task (o : ProviderOutcome) (s : Store) : TaskRec × Store :=
  let notesData := generate_notes o
  if jsonHasKey notesData errK then
    (⟨.failed, some (jsonStr (jsonGetD notesData errK (.strVal []))), none⟩, s)
  else
    (⟨.completed, none, none⟩, { s with note := some (noteRowOf notesData) })

def generate_flashcards_task (o : ProviderOutcome) (s : Store) : TaskRec × Store :=
  let fcData := generate_flashcards o
  if jsonHasKey fcData errK then
    (⟨.failed, some (jsonStr (jsonGetD fcData errK (.strVal []))), none⟩, s)
  else
    let pr := persistCards (jsonAsList (jsonGetD fcData flashcardsK (.arr [])))
    if pr.2 then (⟨.completed, none, none⟩, { s with flashcards := pr.1 })
    else (⟨.processing, none, none⟩, { s with flashcards := pr.1 })

/-! ### The synchronous branch of `TopicViewSet.generate_content`
(`views.py` 687-766)

The inline path runs the same `generate_all_content` and the same per-part
error checks, returning 429 when any erroring part matches
`is_rate_limit_error` and 500 otherwise; on success it upserts the note, the
mindmap (verbatim, without deleting the usage entry), and appends the new
flashcard and MCQ rows without clearing the previous ones.  No task record is
touched on this path.  An exception escaping a persistence loop surfaces as a
500 response. -/
inductive ViewStatus where
  | s200
  | s429
  | s500
deriving DecidableEq, Repr

def generate_content_view (topicName : List Char)
    (oNotes oMindmap oFlash oMcq : ProviderOutcome) (s : Store) :
    ViewStatus × Store :=
  let content := generate_all_content topicName oNotes oMindmap oFlash oMcq
  let errors := contentErrors ("notes".data) ("mindmap".data)
    ("flashcards".data) ("mcqs".data) content
  if errors.any (fun pe => is_rate_limit_error pe.2) then (.s429, s)
  else if errors.isEmpty then
    let note1 := if jsonHasKey content.notes errK then s.note
      else some (noteRowOf content.notes)
    let mindmap1 := if jsonHasKey content.mindmap errK then s.mindmap
      else some content.mindmap
    let fcP :=
      if jsonTruthy content.flashcards then persistCards (jsonAsList content.flashcards)
      else ([], true)
    if fcP.2 then
      let mcqP :=
        if jsonTruthy content.mcqs then persistMcqs (jsonAsList content.mcqs)
        else ([], true)
      if mcqP.2 then
        (.s200, ⟨note1, mindmap1, s.flashcards ++ fcP.1, s.mcqs ++ mcqP.1⟩)
      else (.s500, ⟨note1, mindmap1, s.flashcards ++ fcP.1, s.mcqs ++ mcqP.1⟩)
    else (.s500, ⟨note1, mindmap1, s.flashcards ++ fcP.1, s.mcqs⟩)
  else (.s500, s)

/-! ### Usage governor (`views.py` 75-116) and `UserProfile` (`models.py` 11-74)

Calendar days are modelled as natural numbers; `get_api_key()` is modelled by
the `api_key` field, holding the decrypted personal credential when one is
configured. -/

structure UserProfile where
  api_key : Option (List Char)
  daily_ai_usage_count : Nat
  last_usage_date : Nat
  total_input_tokens : Nat
  total_output_tokens : Nat
deriving DecidableEq, Repr

/-- The structured denial of `check_ai_usage`: an HTTP status together with
the `limit_reached` flag carried in the response body. -/
structure Denial where
  status : Nat
  limit_reached : Bool
deriving DecidableEq, Repr

/-- The result of `check_ai_usage`, including the saved profile. -/
structure AdmitResult where
  allowed : Bool
  api_key : Option (List Char)
  denial : Option Denial
  profile : UserProfile
deriving DecidableEq, Repr

/-- The lazy counter reset (`views.py` 94-98): on the first check whose day
differs from `last_usage_date`, the counter is zeroed and the date saved. -/
def lazy_reset (p : UserProfile) (today : Nat) : UserProfile :=
  if p.last_usage_date ≠ today then
    { p with daily_ai_usage_count := 0, last_usage_date := today }
  else p

/-- `check_ai_usage(user)` (`views.py` 75-106) on one profile and one day. -/
def check_ai_usage (p : UserProfile) (today : Nat) : AdmitResult :=
  match p.api_key with
  | some key => ⟨true, some key, none, p⟩
  | none =>
    let p1 := lazy_reset p today
    if p1.daily_ai_usage_count ≥ 3 then ⟨false, none, some ⟨429, true⟩, p1⟩
    else ⟨true, none, none, p1⟩

/-- `increment_ai_usage(user)` (`views.py` 108-116): the counter moves only
when no personal credential is configured. -/
def increment_ai_usage (p : UserProfile) : UserProfile :=
  match p.api_key with
  | some _ => p
  | none => { p with daily_ai_usage_count := p.daily_ai_usage_count + 1 }

/-- One successful AI request on day `today`: the admission check followed,
when admitted, by the post-success `increment_ai_usage` every generation view
performs.  Returns whether the request was admitted and the saved profile. -/
def requestStep (p : UserProfile) (today : Nat) : Bool × UserProfile :=
  let c := check_ai_usage p today
  if c.allowed then (true, increment_ai_usage c.profile) else (false, c.profile)

/-- The profile after `n` same-day requests. -/
def run_requests (p : UserProfile) (today : Nat) : Nat → UserProfile
  | 0 => p
  | n + 1 => (requestStep (run_requests p today n) today).2

/-- Whether request number `n + 1` of the day is admitted. -/
def request_admitted (p : UserProfile) (today : Nat) (n : Nat) : Bool :=
  (requestStep (run_requests p today n) today).1

/-- `update_token_usage` / the token ledger update after a successful call
(`views.py` 137-148, `tasks.py` 110-117). -/
def update_token_usage (p : UserProfile) (u : Usage) : UserProfile :=
  { p with total_input_tokens := p.total_input_tokens + u.input
           total_output_tokens := p.total_output_tokens + u.output }

/-! ### `UserProfile.estimated_cost` (`models.py` 65-71)

Python floats are idealised as exact rationals; `round(x, 4)` is modelled by
scaling, rounding half-to-even as Python `round` does, and unscaling. -/

/-- Round a rational to the nearest integer, ties to the even integer. -/
def roundHalfEven (q : ℚ) : ℤ :=
  let f := ⌊q⌋
  let r := q - (f : ℚ)
  if r < 1 / 2 then f
  else if 1 / 2 < r then f + 1
  else if f % 2 = 0 then f else f + 1

/-- `round(x, 4)`. -/
def roundTo4 (q : ℚ) : ℚ := (roundHalfEven (q * 10000) : ℚ) / 10000

/-- `estimated_cost`: `(input / 1_000_000) * 0.10 + (output / 1_000_000) *
0.40`, rounded to four decimal places, recomputed from the ledger. -/
def estimated_cost (p : UserProfile) : ℚ :=
  let input_cost := ((p.total_input_tokens : ℚ) / 1000000) * (1 / 10)
  let output_cost := ((p.total_output_tokens : ℚ) / 1000000) * (4 / 10)
  roundTo4 (input_cost + output_cost)

/-- The cost formula as the specification words it: a fixed per-million-token
input rate (0.10) and a higher fixed per-million-token output rate (0.40),
summed and rounded to 4 decimal places, as a function of the ledger alone. -/
def specCost (inputTokens outputTokens : Nat) : ℚ :=
  roundTo4 ((inputTokens : ℚ) / 1000000 * (1 / 10) +
    (outputTokens : ℚ) / 1000000 * (4 / 10))

/-! ## Concrete inputs used by the concrete-input theorems -/

/-- A topic name. -/
def topicT : List Char := "T".data

/-- A provider reply whose text parses to a notes dict. -/
def okNotesO : ProviderOutcome := .ok ("\x7b\"summary\": \"s\"\x7d".data) ⟨1, 2⟩

/-- A provider reply whose text parses to a mindmap dict. -/
def okMindmapO : ProviderOutcome := .ok ("\x7b\"central_idea\": \"T\"\x7d".data) ⟨3, 4⟩

/-- A provider call raising a quota exception. -/
def quotaExnO : ProviderOutcome := .exn ("429 You exceeded your current quota.".data)

/-- A provider reply whose text parses to an empty JSON array. -/
def okEmptyListO : ProviderOutcome := .ok ("[]".data) ⟨0, 0⟩

/-- A provider reply carrying one well-formed flashcard. -/
def okOneCardO : ProviderOutcome :=
  .ok ("[\x7b\"front\":\"f\",\"back\":\"b\"\x7d]".data) ⟨0, 0⟩

/-- A provider reply carrying a second, different flashcard. -/
def okOtherCardO : ProviderOutcome :=
  .ok ("[\x7b\"front\":\"g\",\"back\":\"c\"\x7d]".data) ⟨0, 0⟩

/-! ## Claims -/

/-- Claim C9 (confirmed): the estimated cost of a usage profile is a derived,
read-only computation equal to `(total_input_tokens / 1e6) * 0.10 +
(total_output_tokens / 1e6) * 0.40` rounded to 4 decimal places, depending on
nothing but the token ledger (so it is recomputed from the ledger on every
read rather than stored); a profile with 1,000,000 input and 1,000,000 output
tokens yields 0.50. -/
theorem C9_estimated_cost_is_derived_rounded_formula (p q : UserProfile)
    (hin : p.total_input_tokens = q.total_input_tokens)
    (hout : p.total_output_tokens = q.total_output_tokens) :
    estimated_cost p = specCost p.total_input_tokens p.total_output_tokens
      ∧ estimated_cost p = estimated_cost q
      ∧ estimated_cost ⟨none, 0, 0, 1000000, 1000000⟩ = 1 / 2 := by
  refine ⟨rfl, ?_, ?_⟩
  · unfold estimated_cost
    rw [hin, hout]
  · norm_num [estimated_cost, roundTo4, roundHalfEven]

/-- Witness for C9 at a concrete profile. -/
theorem C9_estimated_cost_is_derived_rounded_formula_witness :
    (⟨none, 0, 0, 1000000, 1000000⟩ : UserProfile).total_input_tokens
        = (⟨none, 0, 0, 1000000, 1000000⟩ : UserProfile).total_input_tokens
      ∧ estimated_cost ⟨none, 0, 0, 1000000, 1000000⟩ = 1 / 2 :=
  ⟨rfl, (C9_estimated_cost_is_derived_rounded_formula ⟨none, 0, 0, 1000000, 1000000⟩
    ⟨none, 0, 0, 1000000, 1000000⟩ rfl rfl).2.2⟩

/-- Claim C6 (confirmed): a user holding a decrypted personal credential is
always admitted (the check returns the credential and touches nothing), the
post-success increment never moves their daily counter, and any number of
same-day requests leaves the profile unchanged with every request admitted. -/
theorem C6_personal_credential_never_limited (p : UserProfile) (k : List Char)
    (d : Nat) (hk : p.api_key = some k) :
    (check_ai_usage p d).allowed = true
      ∧ (check_ai_usage p d).api_key = some k
      ∧ (check_ai_usage p d).profile = p
      ∧ increment_ai_usage p = p
      ∧ (∀ n, run_requests p d n = p)
      ∧ (∀ n, request_admitted p d n = true) := by
  have hstep : requestStep p d = (true, p) := by
    simp [requestStep, check_ai_usage, increment_ai_usage, hk]
  have hrun : ∀ n, run_requests p d n = p := by
    intro n
    induction n with
    | zero => rfl
    | succ m ih => simp [run_requests, ih, hstep]
  refine ⟨?_, ?_, ?_, ?_, hrun, ?_⟩
  · simp [check_ai_usage, hk]
  · simp [check_ai_usage, hk]
  · simp [check_ai_usage, hk]
  · simp [increment_ai_usage, hk]
  · intro n
    simp [request_admitted, hrun, hstep]

/-- Witness for C6 at a concrete profile whose counter already sits at the
cap: the fifth-and-later requests are still admitted and nothing changes. -/
theorem C6_personal_credential_never_limited_witness :
    (⟨some ("K".data), 3, 7, 0, 0⟩ : UserProfile).api_key = some ("K".data)
      ∧ (check_ai_usage ⟨some ("K".data), 3, 7, 0, 0⟩ 9).allowed = true
      ∧ run_requests ⟨some ("K".data), 3, 7, 0, 0⟩ 9 5 = ⟨some ("K".data), 3, 7, 0, 0⟩
      ∧ request_admitted ⟨some ("K".data), 3, 7, 0, 0⟩ 9 4 = true :=
  ⟨rfl, (C6_personal_credential_never_limited _ _ 9 rfl).1,
    (C6_personal_credential_never_limited _ _ 9 rfl).2.2.2.2.1 5,
    (C6_personal_credential_never_limited _ _ 9 rfl).2.2.2.2.2 4⟩

/-- Claim C5 (confirmed): for a user without a personal credential the
admission check denies — with the structured `limit_reached` signal and a 429
status — exactly when the counter, after the lazy reset, has reached the cap
of 3; the counter is zeroed on the first check of a new calendar day and not
again within that day; starting a fresh day, requests 1-3 are admitted and
request 4 (the cap+1-th) is denied; and on any later day whose date differs
from the stored one the same user is admitted again with no other change. -/
theorem C5_shared_credential_daily_cap (p : UserProfile) (d : Nat)
    (hk : p.api_key = none) (hd : p.last_usage_date ≠ d) :
    ((check_ai_usage p d).profile.daily_ai_usage_count = 0
        ∧ (check_ai_usage p d).profile.last_usage_date = d
        ∧ (check_ai_usage p d).allowed = true)
      ∧ (∀ q : UserProfile, q.api_key = none → q.last_usage_date = d →
          (check_ai_usage q d).profile = q)
      ∧ (∀ q : UserProfile, q.api_key = none →
          ((check_ai_usage q d).allowed = false ↔
            3 ≤ (lazy_reset q d).daily_ai_usage_count))
      ∧ (∀ q : UserProfile, q.api_key = none →
          (check_ai_usage q d).allowed = false →
          (check_ai_usage q d).denial = some ⟨429, true⟩)
      ∧ request_admitted p d 0 = true ∧ request_admitted p d 1 = true
      ∧ request_admitted p d 2 = true ∧ request_admitted p d 3 = false
      ∧ (∀ q : UserProfile, ∀ d2 : Nat, q.api_key = none → q.last_usage_date ≠ d2 →
          (check_ai_usage q d2).allowed = true) := by
  have e1 : run_requests p d 1 =
      { p with daily_ai_usage_count := 1, last_usage_date := d } := by
    simp [run_requests, requestStep, check_ai_usage, lazy_reset, increment_ai_usage, hk, hd]
  have e2 : run_requests p d 2 =
      { p with daily_ai_usage_count := 2, last_usage_date := d } := by
    show (requestStep (run_requests p d 1) d).2 = _
    rw [e1]
    simp [requestStep, check_ai_usage, lazy_reset, increment_ai_usage, hk]
  have e3 : run_requests p d 3 =
      { p with daily_ai_usage_count := 3, last_usage_date := d } := by
    show (requestStep (run_requests p d 2) d).2 = _
    rw [e2]
    simp [requestStep, check_ai_usage, lazy_reset, increment_ai_usage, hk]
  refine ⟨⟨?_, ?_, ?_⟩, ?_, ?_, ?_, ?_, ?_, ?_, ?_, ?_⟩
  · simp [check_ai_usage, lazy_reset, hk, hd]
  · simp [check_ai_usage, lazy_reset, hk, hd]
  · simp [check_ai_usage, lazy_reset, hk, hd]
  · intro q hq hqd
    unfold check_ai_usage
    rw [hq]
    have hl : lazy_reset q d = q := by simp [lazy_reset, hqd]
    simp only [hl]
    split <;> rfl
  · intro q hq
    unfold check_ai_usage
    rw [hq]
    by_cases h : 3 ≤ (lazy_reset q d).daily_ai_usage_count
    · simp [h]
    · simp [h]
  · intro q hq hden
    unfold check_ai_usage at hden ⊢
    rw [hq] at hden ⊢
    by_cases h : 3 ≤ (lazy_reset q d).daily_ai_usage_count
    · simp [h]
    · simp [h] at hden
  · simp [request_admitted, run_requests, requestStep, check_ai_usage, lazy_reset, hk, hd]
  · unfold request_admitted
    rw [e1]
    simp [requestStep, check_ai_usage, lazy_reset, increment_ai_usage, hk]
  · unfold request_admitted
    rw [e2]
    simp [requestStep, check_ai_usage, lazy_reset, increment_ai_usage, hk]
  · unfold request_admitted
    rw [e3]
    simp [requestStep, check_ai_usage, lazy_reset, increment_ai_usage, hk]
  · intro q d2 hq hqd
    simp [check_ai_usage, lazy_reset, hq, hqd]

/-- Witness for C5 at a concrete keyless profile crossing a day boundary. -/
theorem C5_shared_credential_daily_cap_witness :
    (⟨none, 3, 4, 0, 0⟩ : UserProfile).api_key = none
      ∧ (⟨none, 3, 4, 0, 0⟩ : UserProfile).last_usage_date ≠ 5
      ∧ (check_ai_usage ⟨none, 3, 4, 0, 0⟩ 5).allowed = true
      ∧ request_admitted ⟨none, 3, 4, 0, 0⟩ 5 3 = false :=
  ⟨rfl, by decide, (C5_shared_credential_daily_cap ⟨none, 3, 4, 0, 0⟩ 5 rfl
      (by decide)).1.2.2,
    (C5_shared_credential_daily_cap ⟨none, 3, 4, 0, 0⟩ 5 rfl (by decide)).2.2.2.2.2.2.2.1⟩

/-- Claim C10 (confirmed): on any non-exception provider reply,
`generate_flashcards` and `generate_mcqs` return a dict whose
`flashcards` / `mcqs` entry is always a list: the parsed list itself when the
extracted record is a (truthy) list, and the empty list when extraction
failed or produced a non-list value. -/
theorem C10_flashcards_mcqs_value_always_list (text : List Char) (u : Usage) :
    ∃ xs : List Json,
      generate_flashcards (.ok text u)
          = .obj [(flashcardsK, .arr xs), (usageK, usageJson u)]
        ∧ generate_mcqs (.ok text u)
          = .obj [(mcqsK, .arr xs), (usageK, usageJson u)]
        ∧ (clean_json_response text = none → xs = [])
        ∧ (∀ j, clean_json_response text = some j →
            (jsonIsList j = false → xs = [])
              ∧ ∀ ys, j = .arr ys → jsonTruthy j = true → xs = ys) := by
  refine ⟨match clean_json_response text with
    | some j => if jsonTruthy j && jsonIsList j then jsonAsList j else []
    | none => [], rfl, rfl, ?_, ?_⟩
  · intro h
    simp [h]
  · intro j hj
    refine ⟨?_, ?_⟩
    · intro hnl
      simp [hj, hnl]
    · intro ys hys htr
      subst hys
      simp [hj, htr, jsonIsList, jsonAsList]

/-- Witness for C10: a reply with no embedded record yields the empty list. -/
theorem C10_flashcards_mcqs_value_always_list_witness :
    clean_json_response ("pure text without records".data) = none
      ∧ generate_flashcards (.ok ("pure text without records".data) ⟨1, 2⟩)
        = .obj [(flashcardsK, .arr []), (usageK, usageJson ⟨1, 2⟩)] := by
  obtain ⟨xs, hf, _, hnone, _⟩ :=
    C10_flashcards_mcqs_value_always_list ("pure text without records".data) ⟨1, 2⟩
  exact ⟨rfl, by rw [hf, hnone rfl]⟩

/-- Claim C3 (confirmed): running a single-kind generation task twice leaves
exactly the artifacts of the second run: for the singleton notes kind the one
row holds the second run results, and for the flashcards set kind the stored
set is exactly what the second run persists — independent of the initial
store and of the first run — because the task deletes all prior instances
before inserting.  Hypotheses: the second run result carries no error entry
and its persistence loop completes. -/
theorem C3_single_kind_regeneration_replaces (s : Store)
    (oN1 oN2 oF1 oF2 : ProviderOutcome)
    (hn : jsonHasKey (generate_notes oN2) errK = false)
    (hf : jsonHasKey (generate_flashcards oF2) errK = false)
    (hok : (persistCards (jsonAsList
        (jsonGetD (generate_flashcards oF2) flashcardsK (.arr [])))).2 = true) :
    (generate_notes_task oN2 (generate_notes_task oN1 s).2).2.note
        = some (noteRowOf (generate_notes oN2))
      ∧ (generate_notes_task oN2 (generate_notes_task oN1 s).2).1.status = .completed
      ∧ (generate_flashcards_task oF2 (generate_flashcards_task oF1 s).2).2.flashcards
        = (persistCards (jsonAsList
            (jsonGetD (generate_flashcards oF2) flashcardsK (.arr [])))).1
      ∧ (generate_flashcards_task oF2 (generate_flashcards_task oF1 s).2).1.status
        = .completed := by
  refine ⟨?_, ?_, ?_, ?_⟩ <;>
    simp [generate_notes_task, generate_flashcards_task, hn, hf, hok]

/-- Witness for C3: two concrete successful flashcard runs leave exactly the
second card. -/
theorem C3_single_kind_regeneration_replaces_witness :
    jsonHasKey (generate_notes okNotesO) errK = false
      ∧ jsonHasKey (generate_flashcards okOtherCardO) errK = false
      ∧ (generate_flashcards_task okOtherCardO
          (generate_flashcards_task okOneCardO emptyStore).2).2.flashcards
        = [⟨.strVal ("g".data), .strVal ("c".data)⟩] := by
  refine ⟨rfl, rfl, ?_⟩
  rw [(C3_single_kind_regeneration_replaces emptyStore okNotesO okNotesO
    okOneCardO okOtherCardO rfl rfl rfl).2.2.1]
  rfl

/-- Claim C1 (code bug): the generate-all task is NOT all-or-nothing.  At the
concrete input below the flashcards call raises a quota error — its result is
a tagged error dict with `error_code = quota_exceeded` — yet
`generate_all_content` projects that error dict to the empty list, so the
error checks of `generate_content_task` (which test for a dict under the
`flashcards` key and can therefore never fire) see nothing: the task is
marked `completed`, the notes and mindmap are persisted, and the failed
flashcards kind is silently absent. -/
theorem C1_flashcards_error_completed_with_partial_persistence :
    jsonHasKey (generate_flashcards quotaExnO) errK = true
      ∧ errCodeOf (generate_flashcards quotaExnO) = some (.strVal quotaCodeV)
      ∧ (generate_content_task topicT okNotesO okMindmapO quotaExnO okEmptyListO
          emptyStore).1.status = .completed
      ∧ (generate_content_task topicT okNotesO okMindmapO quotaExnO okEmptyListO
          emptyStore).1.error_message = none
      ∧ (generate_content_task topicT okNotesO okMindmapO quotaExnO okEmptyListO
          emptyStore).2.note.isSome = true
      ∧ (generate_content_task topicT okNotesO okMindmapO quotaExnO okEmptyListO
          emptyStore).2.mindmap.isSome = true
      ∧ (generate_content_task topicT okNotesO okMindmapO quotaExnO okEmptyListO
          emptyStore).2.flashcards = [] :=
  ⟨rfl, rfl, rfl, rfl, rfl, rfl, rfl⟩

/-- Counterexample to claim C4: a single-kind generation task can terminate
with the record still in `processing`: here the provider replies with the
array `[5]`, whose non-dict element makes `fc.get('front', '')` raise inside
the persistence loop after the record was set to `processing`; the exception
handler of `generate_flashcards_task` only logs, so the record never reaches
a terminal state. -/
theorem C4_counterexample_stuck_in_processing :
    (generate_flashcards_task (.ok ("[5]".data) ⟨0, 0⟩) emptyStore).1.status
        = .processing
      ∧ (generate_flashcards_task (.ok ("[5]".data) ⟨0, 0⟩) emptyStore).1.status
        ≠ .completed
      ∧ (generate_flashcards_task (.ok ("[5]".data) ⟨0, 0⟩) emptyStore).1.status
        ≠ .failed :=
  ⟨rfl, by decide, by decide⟩

/-- Claim C4 as amended: `generate_content_task` leaves the task record in a
terminal state on every path (its exception handler marks the record failed);
the single-kind tasks mark the record failed on a generation error and
completed when persistence finishes, but an exception raised in their
persistence loop after the record was set to `processing` is only logged, so
the record can be left non-terminal (see the counterexample). -/
theorem C4_amended_terminal_states (topicName : List Char)
    (o1 o2 o3 o4 o : ProviderOutcome) (s : Store) :
    ((generate_content_task topicName o1 o2 o3 o4 s).1.status = .completed
        ∨ (generate_content_task topicName o1 o2 o3 o4 s).1.status = .failed)
      ∧ ((generate_notes_task o s).1.status = .completed
        ∨ (generate_notes_task o s).1.status = .failed)
      ∧ (jsonHasKey (generate_flashcards o) errK = true →
          (generate_flashcards_task o s).1.status = .failed)
      ∧ ((persistCards (jsonAsList
            (jsonGetD (generate_flashcards o) flashcardsK (.arr [])))).2 = true →
          (generate_flashcards_task o s).1.status = .completed
            ∨ (generate_flashcards_task o s).1.status = .failed) := by
  refine ⟨?_, ?_, ?_, ?_⟩
  · simp only [generate_content_task]
    repeat' split
    all_goals simp
  · simp only [generate_notes_task]
    split
    · exact Or.inr rfl
    · exact Or.inl rfl
  · intro h
    simp [generate_flashcards_task, h]
  · intro h
    simp only [generate_flashcards_task]
    repeat' split
    all_goals simp_all

/-- Witness for the amended C4 at concrete inputs. -/
theorem C4_amended_terminal_states_witness :
    (persistCards (jsonAsList
        (jsonGetD (generate_flashcards okOneCardO) flashcardsK (.arr [])))).2 = true
      ∧ ((generate_flashcards_task okOneCardO emptyStore).1.status = .completed
        ∨ (generate_flashcards_task okOneCardO emptyStore).1.status = .failed)
      ∧ ((generate_content_task topicT okNotesO okMindmapO quotaExnO quotaExnO
          emptyStore).1.status = .completed
        ∨ (generate_content_task topicT okNotesO okMindmapO quotaExnO quotaExnO
          emptyStore).1.status = .failed) :=
  ⟨rfl,
    (C4_amended_terminal_states topicT okNotesO okMindmapO quotaExnO quotaExnO
      okOneCardO emptyStore).2.2.2 rfl,
    (C4_amended_terminal_states topicT okNotesO okMindmapO quotaExnO quotaExnO
      okOneCardO emptyStore).1⟩

/-- Counterexample to claim C7: the regex span runs from the first opening
brace to the last closing brace of the whole text, so a text containing a
well-formed record followed by further commentary with braces yields an
unparseable span: the embedded record `(\x7b"a":1\x7d)` is present and
well-formed, yet extraction returns `none` and the flashcards call site
degrades to the empty list instead of that first record. -/
theorem C7_counterexample_first_record_missed :
    json_loads ("\x7b\"a\":1\x7d".data) = some (.obj [("a".data, .intVal 1)])
      ∧ ("x \x7b\"a\":1\x7d y \x7b\"b\":2\x7d".data : List Char)
        = ("x ".data) ++ ("\x7b\"a\":1\x7d".data) ++ (" y \x7b\"b\":2\x7d".data)
      ∧ clean_json_response ("x \x7b\"a\":1\x7d y \x7b\"b\":2\x7d".data) = none
      ∧ generate_flashcards (.ok ("x \x7b\"a\":1\x7d y \x7b\"b\":2\x7d".data) ⟨0, 0⟩)
        = .obj [(flashcardsK, .arr []), (usageK, usageJson ⟨0, 0⟩)] :=
  ⟨rfl, rfl, rfl, rfl⟩

/-- Claim C7 as amended: the normalizer parses the greedy span from the first
opening delimiter to the last closing one — which does recover the record of
the specification example, where commentary surrounds a single record — and
whenever extraction fails it returns the call-site degraded sentinel (a notes
record whose summary is the 500-character prefix of the raw text, the empty
list for flashcards and mcqs) and, being a total function, never raises. -/
theorem C7_amended_greedy_extraction_and_degradation (text : List Char) (u : Usage)
    (hnone : clean_json_response text = none) :
    clean_json_response ("Sure! Here is the result: \x7b\"a\":1\x7d Thanks".data)
        = some (.obj [("a".data, .intVal 1)])
      ∧ generate_notes (.ok ("Sure! Here is the result: \x7b\"a\":1\x7d Thanks".data) u)
        = attachUsage (.obj [("a".data, .intVal 1)]) u
      ∧ generate_notes (.ok text u) = fallbackNotes text u
      ∧ jsonGetD (fallbackNotes text u) summaryK (.strVal [])
        = .strVal (text.take 500)
      ∧ generate_flashcards (.ok text u)
        = .obj [(flashcardsK, .arr []), (usageK, usageJson u)]
      ∧ generate_mcqs (.ok text u)
        = .obj [(mcqsK, .arr []), (usageK, usageJson u)] := by
  refine ⟨rfl, rfl, ?_, rfl, ?_, ?_⟩
  · simp [generate_notes, hnone]
  · simp [generate_flashcards, hnone]
  · simp [generate_mcqs, hnone]

/-- Witness for the amended C7 on a reply with no extractable record. -/
theorem C7_amended_greedy_extraction_and_degradation_witness :
    clean_json_response ("nothing structured here".data) = none
      ∧ generate_notes (.ok ("nothing structured here".data) ⟨2, 3⟩)
        = fallbackNotes ("nothing structured here".data) ⟨2, 3⟩ :=
  ⟨rfl, (C7_amended_greedy_extraction_and_degradation
    ("nothing structured here".data) ⟨2, 3⟩ rfl).2.2.1⟩

/-- Transitivity of the initial-segment relation. -/
lemma startsWithL_trans : ∀ (p q s : List Char),
    startsWithL p q = true → startsWithL q s = true → startsWithL p s = true
  | [], _, _, _, _ => rfl
  | _ :: _, [], _, h1, _ => by simp [startsWithL] at h1
  | _ :: _, _ :: _, [], _, h2 => by simp [startsWithL] at h2
  | a :: p, b :: q, c :: s, h1, h2 => by
    simp only [startsWithL, Bool.and_eq_true, beq_iff_eq] at h1 h2 ⊢
    exact ⟨h1.1.trans h2.1, startsWithL_trans p q s h1.2 h2.2⟩

/-- A pattern that occurs in a text also witnesses the occurrence of every
initial segment of itself. -/
lemma containsSub_mono : ∀ (p q s : List Char), startsWithL p q = true →
    containsSub q s = true → containsSub p s = true
  | p, q, [], hpq, h => by
    simp only [containsSub] at h ⊢
    exact startsWithL_trans p q [] hpq h
  | p, q, c :: cs, hpq, h => by
    simp only [containsSub, Bool.or_eq_true] at h ⊢
    rcases h with h | h
    · exact Or.inl (startsWithL_trans p q (c :: cs) hpq h)
    · exact Or.inr (containsSub_mono p q cs hpq h)

/-- Counterexample to claim C8: the message `rate-limited` (hyphenated)
matches none of the four `_error_dict` markers, so the error value carries no
`error_code` — a generic error — yet the view layer recomputes the status
from the message with a longer keyword list containing `rate-limited` and
answers 429, not the 500 the claim requires for generic errors. -/
theorem C8_counterexample_generic_error_gets_429 :
    errCodeOf (error_dict ("the call was rate-limited upstream".data)) = none
      ∧ error_response_status ("the call was rate-limited upstream".data) = 429 :=
  ⟨rfl, rfl⟩

/-- Claim C8 as amended: every provider failure is converted into a tagged
error dict (never an uncaught exception), with `error_code = quota_exceeded`
exactly when the message contains a quota / rate-limit / too-many-requests /
429 marker case-insensitively; the outbound status is recomputed from the
message text with three additional markers, so every quota-tagged error maps
to 429, while a generic error maps to 500 unless its text contains the extra
marker `rate-limited`, in which case it is also answered with 429. -/
theorem C8_amended_quota_tagging_and_status (msg topicName : List Char) :
    (errCodeOf (error_dict msg) = some (.strVal quotaCodeV)
        ↔ quotaMarkers (lowerL msg) = true)
      ∧ (quotaMarkers (lowerL msg) = true → error_response_status msg = 429)
      ∧ (quotaMarkers (lowerL msg) = false →
          (error_response_status msg = 500
            ↔ containsSub rateLimitedKw (lowerL msg) = false))
      ∧ generate_notes (.exn msg) = error_dict msg
      ∧ generate_mindmap topicName (.exn msg) = error_dict msg
      ∧ generate_flashcards (.exn msg) = error_dict msg
      ∧ generate_mcqs (.exn msg) = error_dict msg := by
  have hsome : errCodeOf (.obj [(errK, Json.strVal msg), (errCodeK, .strVal quotaCodeV)])
      = some (.strVal quotaCodeV) := rfl
  have hnone : errCodeOf (.obj [(errK, Json.strVal msg)]) = none := rfl
  refine ⟨?_, ?_, ?_, rfl, rfl, rfl, rfl⟩
  · unfold error_dict
    by_cases hm : quotaMarkers (lowerL msg) = true
    · simp [hm, hsome]
    · simp only [Bool.not_eq_true] at hm
      simp [hm, hnone]
  · intro hm
    have hne : msg.isEmpty = false := by
      cases msg with
      | nil => exact absurd hm (by decide)
      | cons c cs => rfl
    have hany : rateLimitKeywords.any (fun k => containsSub k (lowerL msg)) = true := by
      simp only [quotaMarkers, Bool.or_eq_true] at hm
      simp only [rateLimitKeywords, List.any_cons, List.any_nil, Bool.or_eq_true]
      tauto
    simp [error_response_status, is_rate_limit_error, hne, hany]
  · intro hm
    have h4 : ((containsSub quotaKw (lowerL msg) = false
        ∧ containsSub rateLimitKw (lowerL msg) = false)
        ∧ containsSub tooManyKw (lowerL msg) = false)
        ∧ containsSub code429Kw (lowerL msg) = false := by
      simpa [quotaMarkers] using hm
    have hqc : containsSub quotaCodeV (lowerL msg) = false := by
      cases hcv : containsSub quotaCodeV (lowerL msg) with
      | false => rfl
      | true =>
        have hq := containsSub_mono quotaKw quotaCodeV (lowerL msg) (by decide) hcv
        rw [h4.1.1.1] at hq
        exact absurd hq (by decide)
    have hqs : containsSub quotaSpacedKw (lowerL msg) = false := by
      cases hcv : containsSub quotaSpacedKw (lowerL msg) with
      | false => rfl
      | true =>
        have hq := containsSub_mono quotaKw quotaSpacedKw (lowerL msg) (by decide) hcv
        rw [h4.1.1.1] at hq
        exact absurd hq (by decide)
    have hirl : is_rate_limit_error msg = containsSub rateLimitedKw (lowerL msg) := by
      cases msg with
      | nil => rfl
      | cons c cs =>
        simp [is_rate_limit_error, rateLimitKeywords, h4.1.1.1, h4.1.1.2, h4.1.2,
          h4.2, hqc, hqs]
    cases hrl : containsSub rateLimitedKw (lowerL msg) with
    | false => simp [error_response_status, hirl, hrl]
    | true => simp [error_response_status, hirl, hrl]

/-- Witness for the amended C8 at a concrete quota-marked message. -/
theorem C8_amended_quota_tagging_and_status_witness :
    quotaMarkers (lowerL ("429 Too Many Requests".data)) = true
      ∧ error_response_status ("429 Too Many Requests".data) = 429
      ∧ errCodeOf (error_dict ("429 Too Many Requests".data))
        = some (.strVal quotaCodeV) := by
  have h := C8_amended_quota_tagging_and_status ("429 Too Many Requests".data) topicT
  exact ⟨by decide, h.2.1 (by decide), h.1.mpr (by decide)⟩

/-- The error list of a part is empty independently of the label used. -/
lemma partErr_nil_iff (n n' : List Char) (j : Json) :
    partErr n j = [] ↔ partErr n' j = [] := by
  cases j with
  | obj kvs =>
    cases hk : getKey kvs errK with
    | some e => simp [partErr, hk]
    | none => simp [partErr, hk]
  | null => simp [partErr]
  | boolVal b => simp [partErr]
  | intVal i => simp [partErr]
  | strVal t => simp [partErr]
  | arr xs => simp [partErr]

/-- Emptiness of the accumulated error list does not depend on the labels,
which is how the task path and the view path agree on when a run failed. -/
lemma contentErrors_nil_iff (a b c1 d1 a2 b2 c2 d2 : List Char) (k : AllContent) :
    contentErrors a b c1 d1 k = [] ↔ contentErrors a2 b2 c2 d2 k = [] := by
  simp only [contentErrors, List.append_eq_nil]
  rw [partErr_nil_iff a a2 k.notes, partErr_nil_iff b b2 k.mindmap,
    partErr_nil_iff c1 c2 k.flashcards, partErr_nil_iff d1 d2 k.mcqs]

/-- A part with an empty error list carries no `error` key. -/
lemma partErr_nil_hasKey (n : List Char) (j : Json) (h : partErr n j = []) :
    jsonHasKey j errK = false := by
  cases j with
  | obj kvs =>
    cases hk : getKey kvs errK with
    | some e => simp [partErr, hk] at h
    | none =>
      have hfind : kvs.find? (fun p => p.1 == errK) = none := by
        unfold getKey at hk
        exact Option.map_eq_none'.mp hk
      simp only [jsonHasKey, List.any_eq_false]
      intro x hx
      have := List.find?_eq_none.mp hfind x hx
      simpa using this
  | null => rfl
  | boolVal b => rfl
  | intVal i => rfl
  | strVal t => rfl
  | arr xs => rfl

/-- A store already holding one flashcard from an earlier generation. -/
def preCardStore : Store :=
  ⟨none, none, [⟨.strVal ("old".data), .strVal ("o".data)⟩], []⟩

/-- Counterexample to claim C2: starting from a topic that already has one
persisted flashcard, the same all-successful provider outcomes leave two
flashcards on the inline path (which appends without deleting) but exactly
one on the deferred path (which clears the set first) — the two execution
modes do not produce identical persisted artifact sets. -/
theorem C2_counterexample_inline_appends_deferred_replaces :
    (generate_content_view topicT okNotesO okMindmapO okOneCardO okEmptyListO
        preCardStore).1 = .s200
      ∧ (generate_content_task topicT okNotesO okMindmapO okOneCardO okEmptyListO
        preCardStore).1.status = .completed
      ∧ (generate_content_view topicT okNotesO okMindmapO okOneCardO okEmptyListO
        preCardStore).2.flashcards.length = 2
      ∧ (generate_content_task topicT okNotesO okMindmapO okOneCardO okEmptyListO
        preCardStore).2.flashcards.length = 1
      ∧ (generate_content_view topicT okNotesO okMindmapO okOneCardO okEmptyListO
          preCardStore).2.flashcards
        ≠ (generate_content_task topicT okNotesO okMindmapO okOneCardO okEmptyListO
          preCardStore).2.flashcards := by
  refine ⟨rfl, rfl, rfl, rfl, ?_⟩
  intro h
  have h2 : (2 : Nat) = 1 := by
    calc (2 : Nat)
        = (generate_content_view topicT okNotesO okMindmapO okOneCardO okEmptyListO
            preCardStore).2.flashcards.length := rfl
      _ = (generate_content_task topicT okNotesO okMindmapO okOneCardO okEmptyListO
            preCardStore).2.flashcards.length := congrArg List.length h
      _ = 1 := rfl
  exact absurd h2 (by decide)

/-- Claim C2 as amended: the inline view path and the deferred task path run
the same generation sequence and error checks and always persist the same
note; their flashcard and MCQ sets coincide whenever the topic had none
persisted before (the inline path appends to prior rows where the deferred
path replaces them, so they diverge otherwise); and on success the inline
path stores the mindmap verbatim while the deferred path strips its usage
entry.  The inline path also maintains no task record, while the deferred
worker drives one to a terminal state. -/
theorem C2_amended_inline_vs_deferred_persistence (topicName : List Char)
    (o1 o2 o3 o4 : ProviderOutcome) (s : Store) :
    (generate_content_view topicName o1 o2 o3 o4 s).2.note
        = (generate_content_task topicName o1 o2 o3 o4 s).2.note
      ∧ (s.flashcards = [] →
          (generate_content_view topicName o1 o2 o3 o4 s).2.flashcards
            = (generate_content_task topicName o1 o2 o3 o4 s).2.flashcards)
      ∧ (s.mcqs = [] →
          (generate_content_view topicName o1 o2 o3 o4 s).2.mcqs
            = (generate_content_task topicName o1 o2 o3 o4 s).2.mcqs)
      ∧ (contentErrors ("Notes".data) ("Mindmap".data) ("Flashcards".data)
            ("MCQs".data) (generate_all_content topicName o1 o2 o3 o4) = [] →
          (generate_content_view topicName o1 o2 o3 o4 s).2.mindmap
              = some (generate_all_content topicName o1 o2 o3 o4).mindmap
            ∧ (generate_content_task topicName o1 o2 o3 o4 s).2.mindmap
              = some (delUsage (generate_all_content topicName o1 o2 o3 o4).mindmap)) := by
  by_cases hE : contentErrors ("Notes".data) ("Mindmap".data) ("Flashcards".data)
      ("MCQs".data) (generate_all_content topicName o1 o2 o3 o4) = []
  · have hEv : contentErrors ("notes".data) ("mindmap".data) ("flashcards".data)
        ("mcqs".data) (generate_all_content topicName o1 o2 o3 o4) = [] :=
      (contentErrors_nil_iff ("Notes".data) ("Mindmap".data) ("Flashcards".data)
        ("MCQs".data) ("notes".data) ("mindmap".data) ("flashcards".data)
        ("mcqs".data) _).mp hE
    have hparts := hE
    simp only [contentErrors, List.append_eq_nil] at hparts
    have hnN : jsonHasKey (generate_all_content topicName o1 o2 o3 o4).notes errK
        = false := partErr_nil_hasKey ("Notes".data) _ hparts.1.1.1
    have hnM : jsonHasKey (generate_all_content topicName o1 o2 o3 o4).mindmap errK
        = false := partErr_nil_hasKey ("Mindmap".data) _ hparts.1.1.2
    refine ⟨?_, ?_, ?_, ?_⟩
    · simp only [generate_content_view, generate_content_task, hE, hEv,
        List.any_nil, List.isEmpty_nil, Bool.false_eq_true, if_false, if_true]
      repeat' split
      all_goals rfl
    · intro hfc
      simp only [generate_content_view, generate_content_task, hE, hEv,
        List.any_nil, List.isEmpty_nil, Bool.false_eq_true, if_false, if_true, hfc]
      by_cases ht : jsonTruthy (generate_all_content topicName o1 o2 o3 o4).flashcards = true <;>
        simp only [ht, Bool.false_eq_true, if_false, if_true] <;>
        repeat' split <;> try rfl
    · intro hmc
      simp only [generate_content_view, generate_content_task, hE, hEv,
        List.any_nil, List.isEmpty_nil, Bool.false_eq_true, if_false, if_true, hmc]
      by_cases ht : jsonTruthy (generate_all_content topicName o1 o2 o3 o4).mcqs = true <;>
        simp only [ht, Bool.false_eq_true, if_false, if_true] <;>
        repeat' split <;> try rfl
    · intro _
      simp only [generate_content_view, generate_content_task, hE, hEv,
        List.any_nil, List.isEmpty_nil, Bool.false_eq_true, if_false, if_true, hnN, hnM]
      constructor <;>
        (repeat' split) <;>
        rfl
  · have hEv : ¬ contentErrors ("notes".data) ("mindmap".data) ("flashcards".data)
        ("mcqs".data) (generate_all_content topicName o1 o2 o3 o4) = [] := fun h =>
      hE ((contentErrors_nil_iff ("notes".data) ("mindmap".data) ("flashcards".data)
        ("mcqs".data) ("Notes".data) ("Mindmap".data) ("Flashcards".data)
        ("MCQs".data) _).mp h)
    have hEb : (contentErrors ("Notes".data) ("Mindmap".data) ("Flashcards".data)
        ("MCQs".data) (generate_all_content topicName o1 o2 o3 o4)).isEmpty = false := by
      simpa [List.isEmpty_iff] using hE
    have hEvb : (contentErrors ("notes".data) ("mindmap".data) ("flashcards".data)
        ("mcqs".data) (generate_all_content topicName o1 o2 o3 o4)).isEmpty = false := by
      simpa [List.isEmpty_iff] using hEv
    refine ⟨?_, fun _ => ?_, fun _ => ?_, fun h => absurd h hE⟩ <;>
      simp only [generate_content_view, generate_content_task, hEb, hEvb,
        Bool.false_eq_true, if_false] <;>
      split <;>
      rfl

/-- Witness for the amended C2 at concrete inputs on a fresh topic. -/
theorem C2_amended_inline_vs_deferred_persistence_witness :
    emptyStore.flashcards = ([] : List CardRow)
      ∧ (generate_content_view topicT okNotesO okMindmapO okOneCardO okEmptyListO
          emptyStore).2.flashcards
        = (generate_content_task topicT okNotesO okMindmapO okOneCardO okEmptyListO
          emptyStore).2.flashcards
      ∧ (generate_content_view topicT okNotesO okMindmapO okOneCardO okEmptyListO
          emptyStore).2.note
        = (generate_content_task topicT okNotesO okMindmapO okOneCardO okEmptyListO
          emptyStore).2.note :=
  ⟨rfl,
    (C2_amended_inline_vs_deferred_persistence topicT okNotesO okMindmapO okOneCardO
      okEmptyListO emptyStore).2.1 rfl,
    (C2_amended_inline_vs_deferred_persistence topicT okNotesO okMindmapO okOneCardO
      okEmptyListO emptyStore).1⟩

end PadhoAbhi
